import Mathlib

/-!
Verification of the hw-mqtt-srv MQTT audio bridge.

Shallow embedding of the repository's core:
* `src/mqtt/messages.py` — message dataclasses, JSON (de)serialization,
  base64 payload transport, `MessageParser.parse_message`;
* `src/mqtt/client.py` — `MQTTAIServer` session registry, capacity check,
  audio-request handling, error responses, statistics;
* `src/ai_services/openai_realtime.py` — `OpenAIRealtimeService` audio
  send sequence and response-receiving generator.

Python bytes are lists of naturals below 256; Python dicts of JSON data are
association lists of a `PyVal` type; floats are modelled as rationals;
effects (UUID generation, wall-clock time, publishes, websocket traffic)
are made explicit as parameters and outputs.
-/

namespace HwMqtt

/-! ### Base64 transport layer (`base64.b64encode` / `base64.b64decode`)

The repository encodes audio bytes with Python's standard base64 and decodes
them on receipt (`AudioRequestMessage.create` / `get_audio_bytes`).  The
standard alphabet and 3-byte/4-char grouping with `=` padding are embedded
directly. -/

def b64Table : List Char :=
  ['A','B','C','D','E','F','G','H','I','J','K','L','M','N','O','P','Q','R',
   'S','T','U','V','W','X','Y','Z','a','b','c','d','e','f','g','h','i','j',
   'k','l','m','n','o','p','q','r','s','t','u','v','w','x','y','z','0','1',
   '2','3','4','5','6','7','8','9','+','/']

def sextetChar (n : Nat) : Char := b64Table.getD n 'A'

def charSextet (c : Char) : Option Nat := b64Table.findIdx? (fun x => x == c)

def b64EncodeChunks : List Nat → List Char
  | [] => []
  | [b1] => [sextetChar (b1 / 4), sextetChar (b1 % 4 * 16), '=', '=']
  | [b1, b2] =>
      [sextetChar (b1 / 4), sextetChar (b1 % 4 * 16 + b2 / 16),
       sextetChar (b2 % 16 * 4), '=']
  | b1 :: b2 :: b3 :: rest =>
      sextetChar (b1 / 4) :: sextetChar (b1 % 4 * 16 + b2 / 16) ::
      sextetChar (b2 % 16 * 4 + b3 / 64) :: sextetChar (b3 % 64) ::
      b64EncodeChunks rest

def b64DecodeChunks : List Char → Option (List Nat)
  | [] => some []
  | c1 :: c2 :: c3 :: c4 :: rest =>
      match charSextet c1, charSextet c2 with
      | some s1, some s2 =>
        if c3 = '=' then
          if c4 = '=' ∧ rest = [] then some [s1 * 4 + s2 / 16] else none
        else
          match charSextet c3 with
          | some s3 =>
            if c4 = '=' then
              if rest = [] then
                some [s1 * 4 + s2 / 16, s2 % 16 * 16 + s3 / 4]
              else none
            else
              match charSextet c4, b64DecodeChunks rest with
              | some s4, some bs =>
                  some ((s1 * 4 + s2 / 16) :: (s2 % 16 * 16 + s3 / 4) ::
                        (s3 % 4 * 64 + s4) :: bs)
              | _, _ => none
          | none => none
      | _, _ => none
  | _ => none

/-- Python `b64encode(x).decode()` : bytes to ASCII text. -/
def pyB64Encode (bs : List Nat) : String := String.mk (b64EncodeChunks bs)

/-- Python `b64decode(s)` : ASCII text back to bytes; `none` models the raised
`binascii.Error` on undecodable input. -/
def pyB64Decode (s : String) : Option (List Nat) := b64DecodeChunks s.data

/-! ### JSON-level Python values

`json.loads` / `json.dumps` (standard library, outside the repository) are
treated as a faithful bijection between wire text and structured values, so
encoding and decoding are modelled directly on the structured values.
Python dicts of JSON data are association lists; numbers are rationals. -/

inductive PyVal : Type where
  | vnone : PyVal
  | vbool : Bool → PyVal
  | vstr : String → PyVal
  | vnum : Rat → PyVal
  | vlist : List PyVal → PyVal
  | vobj : List (String × PyVal) → PyVal

abbrev PyDict := List (String × PyVal)

/-- Python `data.get(k)` : first binding of `k`, if any. -/
def lookupKey (d : PyDict) (k : String) : Option PyVal :=
  (d.find? (fun kv => kv.1 == k)).map (fun kv => kv.2)

/-- Every key of `d` is a declared field name (`cls(**data)` raises
`TypeError` on an unexpected keyword). -/
def keysOk (d : PyDict) (allowed : List String) : Bool :=
  d.all (fun kv => allowed.contains kv.1)

/-- Python truthiness of a JSON value (`if not x`). -/
def pyFalsy : PyVal → Bool
  | .vnone => true
  | .vbool b => !b
  | .vstr s => s = ""
  | .vnum q => q = 0
  | .vlist l => l.isEmpty
  | .vobj d => d.isEmpty

/-! ### `src/mqtt/messages.py` : message dataclasses -/

/-- The `MessageType` enum — six members, not four: the enum also declares
`SESSION_START` and `SESSION_END`. -/
inductive MessageType : Type where
  | audio_request | audio_response | health_check | error
  | session_start | session_end
deriving DecidableEq

/-- String `.value` of the enum member. -/
def MessageType.value : MessageType → String
  | .audio_request => "audio_request"
  | .audio_response => "audio_response"
  | .health_check => "health_check"
  | .error => "error"
  | .session_start => "session_start"
  | .session_end => "session_end"

/-- Enum lookup `MessageType(s)`; `none` models the raised `ValueError`. -/
def messageTypeOfString (s : String) : Option MessageType :=
  if s = "audio_request" then some .audio_request
  else if s = "audio_response" then some .audio_response
  else if s = "health_check" then some .health_check
  else if s = "error" then some .error
  else if s = "session_start" then some .session_start
  else if s = "session_end" then some .session_end
  else none

/-- The `AudioMetadata` dataclass.  Numeric fields are `int`/`float` in the
source; both are carried as JSON numbers, modelled as rationals. -/
structure AudioMetadata : Type where
  format : String := "mp3"
  sample_rate : Rat := 16000
  channels : Rat := 1
  chunk_id : Rat := 0
  total_chunks : Rat := 1
  duration_ms : Option Rat := none
deriving DecidableEq

/-- The five fields shared by every message (`AudioMessage` base class);
also the concrete shape `parse_message` builds for the `session_start` /
`session_end` kinds, which fall through to the base class. -/
structure AudioMessage : Type where
  message_id : String
  device_id : String
  timestamp : Rat
  message_type : MessageType
  session_id : String
deriving DecidableEq

structure AudioRequestMessage : Type where
  message_id : String
  device_id : String
  timestamp : Rat
  message_type : MessageType
  session_id : String
  audio_data : String
  audio_metadata : AudioMetadata
  language : Option String := none
  voice : Option String := none
  instructions : Option String := none
  config : Option PyDict := none

structure AudioResponseMessage : Type where
  message_id : String
  device_id : String
  timestamp : Rat
  message_type : MessageType
  session_id : String
  audio_data : String
  audio_metadata : AudioMetadata
  transcript : String := ""
  processing_time_ms : Rat := 0
  cost_estimate : Rat := 0
  response_metadata : Option PyDict := none

structure ErrorMessage : Type where
  message_id : String
  device_id : String
  timestamp : Rat
  message_type : MessageType
  session_id : String
  error_code : String
  error_message : String
  original_message_id : Option String := none
deriving DecidableEq

structure HealthCheckMessage : Type where
  message_id : String
  device_id : String
  timestamp : Rat
  message_type : MessageType
  session_id : String
  status : String := "healthy"
  uptime_seconds : Rat := 0
  active_sessions : Rat := 0
  system_info : Option PyDict := none

/-! `__post_init__` : the base class replaces a falsy `message_id` with a
fresh `uuid.uuid4()` string and a falsy `timestamp` with `time.time()`;
each subclass then overwrites `message_type` with its own kind.  The
effectful fresh values are explicit parameters. -/

def mkAudioMessage (fresh : String) (now : Rat) (m : AudioMessage) : AudioMessage :=
  { m with
    message_id := if m.message_id = "" then fresh else m.message_id
    timestamp := if m.timestamp = 0 then now else m.timestamp }

def mkAudioRequestMessage (fresh : String) (now : Rat) (m : AudioRequestMessage) :
    AudioRequestMessage :=
  { m with
    message_id := if m.message_id = "" then fresh else m.message_id
    timestamp := if m.timestamp = 0 then now else m.timestamp
    message_type := .audio_request }

def mkAudioResponseMessage (fresh : String) (now : Rat) (m : AudioResponseMessage) :
    AudioResponseMessage :=
  { m with
    message_id := if m.message_id = "" then fresh else m.message_id
    timestamp := if m.timestamp = 0 then now else m.timestamp
    message_type := .audio_response }

def mkErrorMessage (fresh : String) (now : Rat) (m : ErrorMessage) : ErrorMessage :=
  { m with
    message_id := if m.message_id = "" then fresh else m.message_id
    timestamp := if m.timestamp = 0 then now else m.timestamp
    message_type := .error }

def mkHealthCheckMessage (fresh : String) (now : Rat) (m : HealthCheckMessage) :
    HealthCheckMessage :=
  { m with
    message_id := if m.message_id = "" then fresh else m.message_id
    timestamp := if m.timestamp = 0 then now else m.timestamp
    message_type := .health_check }

/-! `to_dict` : `dataclasses.asdict` in field order, with `message_type`
replaced by its string value. -/

def optStrVal : Option String → PyVal
  | none => .vnone
  | some s => .vstr s

def optNumVal : Option Rat → PyVal
  | none => .vnone
  | some q => .vnum q

def optObjVal : Option PyDict → PyVal
  | none => .vnone
  | some d => .vobj d

def AudioMetadata.toPy (md : AudioMetadata) : PyVal :=
  .vobj [("format", .vstr md.format), ("sample_rate", .vnum md.sample_rate),
         ("channels", .vnum md.channels), ("chunk_id", .vnum md.chunk_id),
         ("total_chunks", .vnum md.total_chunks),
         ("duration_ms", optNumVal md.duration_ms)]

def AudioRequestMessage.to_dict (m : AudioRequestMessage) : PyDict :=
  [("message_id", .vstr m.message_id), ("device_id", .vstr m.device_id),
   ("timestamp", .vnum m.timestamp), ("message_type", .vstr m.message_type.value),
   ("session_id", .vstr m.session_id), ("audio_data", .vstr m.audio_data),
   ("audio_metadata", m.audio_metadata.toPy), ("language", optStrVal m.language),
   ("voice", optStrVal m.voice), ("instructions", optStrVal m.instructions),
   ("config", optObjVal m.config)]

def AudioResponseMessage.to_dict (m : AudioResponseMessage) : PyDict :=
  [("message_id", .vstr m.message_id), ("device_id", .vstr m.device_id),
   ("timestamp", .vnum m.timestamp), ("message_type", .vstr m.message_type.value),
   ("session_id", .vstr m.session_id), ("audio_data", .vstr m.audio_data),
   ("audio_metadata", m.audio_metadata.toPy), ("transcript", .vstr m.transcript),
   ("processing_time_ms", .vnum m.processing_time_ms),
   ("cost_estimate", .vnum m.cost_estimate),
   ("response_metadata", optObjVal m.response_metadata)]

def ErrorMessage.to_dict (m : ErrorMessage) : PyDict :=
  [("message_id", .vstr m.message_id), ("device_id", .vstr m.device_id),
   ("timestamp", .vnum m.timestamp), ("message_type", .vstr m.message_type.value),
   ("session_id", .vstr m.session_id), ("error_code", .vstr m.error_code),
   ("error_message", .vstr m.error_message),
   ("original_message_id", optStrVal m.original_message_id)]

def HealthCheckMessage.to_dict (m : HealthCheckMessage) : PyDict :=
  [("message_id", .vstr m.message_id), ("device_id", .vstr m.device_id),
   ("timestamp", .vnum m.timestamp), ("message_type", .vstr m.message_type.value),
   ("session_id", .vstr m.session_id), ("status", .vstr m.status),
   ("uptime_seconds", .vnum m.uptime_seconds),
   ("active_sessions", .vnum m.active_sessions),
   ("system_info", optObjVal m.system_info)]

/-! ### `from_dict` / `MessageParser.parse_message`

`cls(**data)` requires every key of `data` to be a declared field, every
field without a default to be present, and leaves `__post_init__` to run
afterwards.  Field values are extracted at their declared shapes; a present
field of the wrong shape is a schema failure. -/

def reqStr (d : PyDict) (k : String) : Option String :=
  match lookupKey d k with
  | some (.vstr s) => some s
  | _ => none

def reqNum (d : PyDict) (k : String) : Option Rat :=
  match lookupKey d k with
  | some (.vnum q) => some q
  | _ => none

/-- Conversion `data["message_type"] = MessageType(data["message_type"])`. -/
def reqMsgType (d : PyDict) : Option MessageType :=
  match lookupKey d "message_type" with
  | some (.vstr s) => messageTypeOfString s
  | _ => none

def optFieldStr (d : PyDict) (k : String) : Option (Option String) :=
  match lookupKey d k with
  | none => some none
  | some .vnone => some none
  | some (.vstr s) => some (some s)
  | some _ => none

def optFieldStrD (d : PyDict) (k dflt : String) : Option String :=
  match lookupKey d k with
  | none => some dflt
  | some (.vstr s) => some s
  | some _ => none

def optFieldNumD (d : PyDict) (k : String) (dflt : Rat) : Option Rat :=
  match lookupKey d k with
  | none => some dflt
  | some (.vnum q) => some q
  | some _ => none

def optFieldNum (d : PyDict) (k : String) : Option (Option Rat) :=
  match lookupKey d k with
  | none => some none
  | some .vnone => some none
  | some (.vnum q) => some (some q)
  | some _ => none

def optFieldObj (d : PyDict) (k : String) : Option (Option PyDict) :=
  match lookupKey d k with
  | none => some none
  | some .vnone => some none
  | some (.vobj o) => some (some o)
  | some _ => none

def AudioMetadata.fields : List String :=
  ["format", "sample_rate", "channels", "chunk_id", "total_chunks", "duration_ms"]

/-- Call `AudioMetadata(**d)` on the nested dict (all fields have defaults). -/
def AudioMetadata.fromPy : PyVal → Option AudioMetadata
  | .vobj d => do
      guard (keysOk d AudioMetadata.fields)
      let fmt ← optFieldStrD d "format" "mp3"
      let sr ← optFieldNumD d "sample_rate" 16000
      let ch ← optFieldNumD d "channels" 1
      let ci ← optFieldNumD d "chunk_id" 0
      let tc ← optFieldNumD d "total_chunks" 1
      let dm ← optFieldNum d "duration_ms"
      some { format := fmt, sample_rate := sr, channels := ch,
             chunk_id := ci, total_chunks := tc, duration_ms := dm }
  | _ => none

inductive ParseFail : Type where
  | missingKind       -- ValueError : no (or falsy) message_type in payload
  | unknownKind       -- ValueError : message_type not a member of the enum
  | schemaMismatch    -- TypeError from cls(**data)
  | notDict           -- payload is not a JSON object
deriving DecidableEq

def AudioMessage.fields : List String :=
  ["message_id", "device_id", "timestamp", "message_type", "session_id"]

def AudioMessage.fromDictAux (d : PyDict) : Option AudioMessage :=
  if keysOk d AudioMessage.fields then
    match reqStr d "message_id", reqStr d "device_id", reqNum d "timestamp",
        reqMsgType d, reqStr d "session_id" with
    | some mid, some dev, some ts, some mt, some sid =>
        some { message_id := mid, device_id := dev, timestamp := ts,
               message_type := mt, session_id := sid }
    | _, _, _, _, _ => none
  else none

def AudioMessage.from_dict (fresh : String) (now : Rat) (d : PyDict) :
    Except ParseFail AudioMessage :=
  match AudioMessage.fromDictAux d with
  | some m => .ok (mkAudioMessage fresh now m)
  | none => .error .schemaMismatch

def AudioRequestMessage.fields : List String :=
  ["message_id", "device_id", "timestamp", "message_type", "session_id",
   "audio_data", "audio_metadata", "language", "voice", "instructions", "config"]

def AudioRequestMessage.fromDictAux (d : PyDict) : Option AudioRequestMessage :=
  if keysOk d AudioRequestMessage.fields then
    match reqStr d "message_id", reqStr d "device_id", reqNum d "timestamp",
        reqMsgType d, reqStr d "session_id", reqStr d "audio_data",
        (lookupKey d "audio_metadata").bind AudioMetadata.fromPy,
        optFieldStr d "language", optFieldStr d "voice",
        optFieldStr d "instructions", optFieldObj d "config" with
    | some mid, some dev, some ts, some mt, some sid, some ad, some md,
      some lang, some vc, some ins, some cfg =>
        some { message_id := mid, device_id := dev, timestamp := ts,
               message_type := mt, session_id := sid, audio_data := ad,
               audio_metadata := md, language := lang, voice := vc,
               instructions := ins, config := cfg }
    | _, _, _, _, _, _, _, _, _, _, _ => none
  else none

def AudioRequestMessage.from_dict (fresh : String) (now : Rat) (d : PyDict) :
    Except ParseFail AudioRequestMessage :=
  match AudioRequestMessage.fromDictAux d with
  | some m => .ok (mkAudioRequestMessage fresh now m)
  | none => .error .schemaMismatch

def AudioResponseMessage.fields : List String :=
  ["message_id", "device_id", "timestamp", "message_type", "session_id",
   "audio_data", "audio_metadata", "transcript", "processing_time_ms",
   "cost_estimate", "response_metadata"]

def AudioResponseMessage.fromDictAux (d : PyDict) : Option AudioResponseMessage :=
  if keysOk d AudioResponseMessage.fields then
    match reqStr d "message_id", reqStr d "device_id", reqNum d "timestamp",
        reqMsgType d, reqStr d "session_id", reqStr d "audio_data",
        (lookupKey d "audio_metadata").bind AudioMetadata.fromPy,
        optFieldStrD d "transcript" "", optFieldNumD d "processing_time_ms" 0,
        optFieldNumD d "cost_estimate" 0, optFieldObj d "response_metadata" with
    | some mid, some dev, some ts, some mt, some sid, some ad, some md,
      some tr, some pt, some ce, some rm =>
        some { message_id := mid, device_id := dev, timestamp := ts,
               message_type := mt, session_id := sid, audio_data := ad,
               audio_metadata := md, transcript := tr, processing_time_ms := pt,
               cost_estimate := ce, response_metadata := rm }
    | _, _, _, _, _, _, _, _, _, _, _ => none
  else none

def AudioResponseMessage.from_dict (fresh : String) (now : Rat) (d : PyDict) :
    Except ParseFail AudioResponseMessage :=
  match AudioResponseMessage.fromDictAux d with
  | some m => .ok (mkAudioResponseMessage fresh now m)
  | none => .error .schemaMismatch

def ErrorMessage.fields : List String :=
  ["message_id", "device_id", "timestamp", "message_type", "session_id",
   "error_code", "error_message", "original_message_id"]

def ErrorMessage.fromDictAux (d : PyDict) : Option ErrorMessage :=
  if keysOk d ErrorMessage.fields then
    match reqStr d "message_id", reqStr d "device_id", reqNum d "timestamp",
        reqMsgType d, reqStr d "session_id", reqStr d "error_code",
        reqStr d "error_message", optFieldStr d "original_message_id" with
    | some mid, some dev, some ts, some mt, some sid, some ec, some em,
      some om =>
        some { message_id := mid, device_id := dev, timestamp := ts,
               message_type := mt, session_id := sid, error_code := ec,
               error_message := em, original_message_id := om }
    | _, _, _, _, _, _, _, _ => none
  else none

def ErrorMessage.from_dict (fresh : String) (now : Rat) (d : PyDict) :
    Except ParseFail ErrorMessage :=
  match ErrorMessage.fromDictAux d with
  | some m => .ok (mkErrorMessage fresh now m)
  | none => .error .schemaMismatch

def HealthCheckMessage.fields : List String :=
  ["message_id", "device_id", "timestamp", "message_type", "session_id",
   "status", "uptime_seconds", "active_sessions", "system_info"]

def HealthCheckMessage.fromDictAux (d : PyDict) : Option HealthCheckMessage :=
  if keysOk d HealthCheckMessage.fields then
    match reqStr d "message_id", reqStr d "device_id", reqNum d "timestamp",
        reqMsgType d, reqStr d "session_id", optFieldStrD d "status" "healthy",
        optFieldNumD d "uptime_seconds" 0, optFieldNumD d "active_sessions" 0,
        optFieldObj d "system_info" with
    | some mid, some dev, some ts, some mt, some sid, some st, some up,
      some ac, some si =>
        some { message_id := mid, device_id := dev, timestamp := ts,
               message_type := mt, session_id := sid, status := st,
               uptime_seconds := up, active_sessions := ac, system_info := si }
    | _, _, _, _, _, _, _, _, _ => none
  else none

def HealthCheckMessage.from_dict (fresh : String) (now : Rat) (d : PyDict) :
    Except ParseFail HealthCheckMessage :=
  match HealthCheckMessage.fromDictAux d with
  | some m => .ok (mkHealthCheckMessage fresh now m)
  | none => .error .schemaMismatch

/-- Result of `MessageParser.parse_message` : one of the four routed
subclasses, or a bare `AudioMessage` for the two session kinds, which fall
through the routing to the base class. -/
inductive ParsedMessage : Type where
  | request : AudioRequestMessage → ParsedMessage
  | response : AudioResponseMessage → ParsedMessage
  | err : ErrorMessage → ParsedMessage
  | health : HealthCheckMessage → ParsedMessage
  | plain : AudioMessage → ParsedMessage

/-- Function `MessageParser.parse_message` on an already-JSON-decoded payload. -/
def MessageParser.parse_message (fresh : String) (now : Rat) (payload : PyVal) :
    Except ParseFail ParsedMessage :=
  match payload with
  | .vobj data =>
      -- message_type = data.get("message_type"); if not message_type: raise
      let mt := (lookupKey data "message_type").getD .vnone
      if pyFalsy mt then .error .missingKind
      else
        match mt with
        | .vstr s =>
            match messageTypeOfString s with
            | none => .error .unknownKind
            | some .audio_request =>
                (AudioRequestMessage.from_dict fresh now data).map .request
            | some .audio_response =>
                (AudioResponseMessage.from_dict fresh now data).map .response
            | some .error =>
                (ErrorMessage.from_dict fresh now data).map .err
            | some .health_check =>
                (HealthCheckMessage.from_dict fresh now data).map .health
            | some _ =>
                (AudioMessage.from_dict fresh now data).map .plain
        | _ => .error .unknownKind
  | _ => .error .notDict

/-- Method `AudioMessage.to_dict` (base class). -/
def AudioMessage.to_dict (m : AudioMessage) : PyDict :=
  [("message_id", .vstr m.message_id), ("device_id", .vstr m.device_id),
   ("timestamp", .vnum m.timestamp), ("message_type", .vstr m.message_type.value),
   ("session_id", .vstr m.session_id)]

/-- Method `get_audio_bytes` : decode the base64 payload back to bytes. -/
def AudioRequestMessage.get_audio_bytes (m : AudioRequestMessage) : Option (List Nat) :=
  pyB64Decode m.audio_data

def AudioResponseMessage.get_audio_bytes (m : AudioResponseMessage) : Option (List Nat) :=
  pyB64Decode m.audio_data

/-! Sample messages used by concrete witnesses. -/

def c4SampleRq : AudioRequestMessage :=
  { message_id := "m1", device_id := "d1", timestamp := 5,
    message_type := .audio_request, session_id := "s1",
    audio_data := pyB64Encode [0, 1, 255], audio_metadata := {} }

def c4SampleRs : AudioResponseMessage :=
  { message_id := "m2", device_id := "d1", timestamp := 6,
    message_type := .audio_response, session_id := "s1",
    audio_data := "", audio_metadata := {} }

def c4SampleEr : ErrorMessage :=
  { message_id := "m3", device_id := "d1", timestamp := 7,
    message_type := .error, session_id := "s1",
    error_code := "E", error_message := "boom" }

def c4SampleHc : HealthCheckMessage :=
  { message_id := "m4", device_id := "server", timestamp := 8,
    message_type := .health_check, session_id := "" }

def c6SamplePlain : AudioMessage :=
  { message_id := "m", device_id := "d1", timestamp := 5,
    message_type := .session_start, session_id := "s" }

/-! ### `src/ai_services/base.py` dataclasses -/

structure AudioRequest : Type where
  audio_data : List Nat
  format : String := "mp3"
  sample_rate : Rat := 16000
  channels : Rat := 1
  session_id : String := ""
  device_id : String := ""
  language : Option String := none
  voice : Option String := none
  additional_config : Option PyDict := none

structure AudioResponse : Type where
  audio_data : List Nat
  format : String := "mp3"
  transcript : String := ""
  processing_time_ms : Rat := 0
  cost_estimate : Rat := 0
  session_id : String := ""
  chunk_id : Nat := 0
  total_chunks : Nat := 1
  metadata : Option PyDict := none

/-! ### `src/ai_services/openai_realtime.py` : OpenAIRealtimeService

The websocket is modelled by the trace of `recv` results the service sees:
a JSON document, a 30-second `asyncio.wait_for` timeout, or a failure of
`recv` itself. -/

/-- Exceptions arising inside `_receive_audio_responses`. -/
inductive PyExn : Type where
  | processingFail : String → PyExn   -- AIServiceProcessingError
  | timeoutFail : PyExn               -- asyncio.TimeoutError
  | otherFail : PyExn                 -- any other exception (closed socket, bad base64, ...)
deriving DecidableEq

inductive WsEvent : Type where
  | msg : PyVal → WsEvent
  | timeout : WsEvent
  | closed : WsEvent

/-- One dict yielded by the `_receive_audio_responses` generator. -/
structure RtChunk : Type where
  audio_data : List Nat
  transcript : String
  metadata : PyDict

/-- What one loop iteration does with a received message. -/
inductive LoopAct : Type where
  | emit : RtChunk → LoopAct
  | skip : LoopAct
  | stop : LoopAct
  | raised : PyExn → LoopAct

/-- Extraction of the backend error text:
`data.get("error", ...).get("message", ...)` with "Unknown error" default. -/
def wsErrorText (data : PyDict) : String :=
  match (lookupKey data "error").getD (.vobj []) with
  | .vobj e =>
      match (lookupKey e "message").getD (.vstr "Unknown error") with
      | .vstr s => s
      | _ => "Unknown error"
  | _ => "Unknown error"

/-- Per-message dispatch of the receive loop body.  Delta payloads are
strings in the backend protocol; non-string shapes are outside the
modelled trace space. -/
def wsDispatch : PyVal → LoopAct
  | .vobj data =>
      match lookupKey data "type" with
      | some (.vstr "response.audio.delta") =>
          let dv := (lookupKey data "delta").getD (.vstr "")
          if pyFalsy dv then .skip
          else
            match dv with
            | .vstr s =>
                match pyB64Decode s with
                | some bytes =>
                    .emit { audio_data := bytes, transcript := "",
                            metadata := [("type", .vstr "audio_delta")] }
                | none => .raised .otherFail
            | _ => .raised .otherFail
      | some (.vstr "response.audio_transcript.delta") =>
          let tv := (lookupKey data "delta").getD (.vstr "")
          if pyFalsy tv then .skip
          else
            match tv with
            | .vstr s =>
                .emit { audio_data := [], transcript := s,
                        metadata := [("type", .vstr "transcript_delta")] }
            | _ => .raised .otherFail
      | some (.vstr "response.done") => .stop
      | some (.vstr "error") =>
          .raised (.processingFail ("API error: " ++ wsErrorText data))
      | _ => .skip
  | _ => .raised .otherFail

/-- The receive loop as written inside the generator's `try` block: the
chunks yielded so far, and the exception that ended the loop (`none` for a
normal `response.done` break).  An exhausted trace stands for a `recv`
that fails. -/
def receiveLoop : List WsEvent → List RtChunk × Option PyExn
  | [] => ([], some .otherFail)
  | .timeout :: _ => ([], some .timeoutFail)
  | .closed :: _ => ([], some .otherFail)
  | .msg v :: rest =>
      match wsDispatch v with
      | .emit c => ((receiveLoop rest).1.cons c, (receiveLoop rest).2)
      | .skip => receiveLoop rest
      | .stop => ([], none)
      | .raised e => ([], some e)

/-- Generator `_receive_audio_responses` as its caller observes it: the generator's
own handlers catch `asyncio.TimeoutError` and every other `Exception`,
log, and fall off the end — so the second component, the exception the
caller sees, is always `none` and the stream just ends. -/
def receiveAudioResponses (events : List WsEvent) : List RtChunk × Option PyExn :=
  ((receiveLoop events).1, none)

/-- Python `round(q, 4)`.  Python rounds half to even; `round` here rounds half
away from zero — the two agree except at exact ten-thousandth ties, which
no claim exercises. -/
def pyRound4 (q : Rat) : Rat := (round (q * 10000) : ℤ) / 10000

/-- Method `estimate_cost` : 0.24 dollars per minute. -/
def estimateCost (audio_duration_seconds : Rat) : Rat :=
  pyRound4 (audio_duration_seconds / 60 * (24 / 100))

/-- Method `_send_audio_data` : the sequence of JSON documents written to the
websocket.  `_convert_to_pcm16` is the identity (placeholder in source);
there is no emptiness check, so the three messages are sent for every
payload, the empty one included. -/
def sendAudioData (audio_data : List Nat) : List PyVal :=
  [.vobj [("type", .vstr "input_audio_buffer.append"),
          ("audio", .vstr (pyB64Encode audio_data))],
   .vobj [("type", .vstr "input_audio_buffer.commit")],
   .vobj [("type", .vstr "response.create")]]

/-- The yield loop of `process_audio_stream`: wraps each received chunk in
an `AudioResponse`, numbering chunks with the running counter `chunk_id`
that starts at 0 and increments after each yield. -/
def rtResponses (req : AudioRequest) (ptimes : Nat → Rat) :
    Nat → List RtChunk → List AudioResponse
  | _, [] => []
  | i, c :: cs =>
      { audio_data := c.audio_data, format := "mp3", transcript := c.transcript,
        processing_time_ms := ptimes i,
        cost_estimate := estimateCost ((req.audio_data.length : Rat) / 16000),
        session_id := req.session_id, chunk_id := i, total_chunks := 1,
        metadata := some c.metadata } :: rtResponses req ptimes (i + 1) cs

/-- Generator `process_audio_stream` on the successful path (session obtained, audio
sent): the stream of `AudioResponse` values yielded to the MQTT server,
driven by the websocket trace.  `ptimes i` is the elapsed-milliseconds
clock reading when chunk `i` is wrapped. -/
def process_audio_stream (req : AudioRequest) (ptimes : Nat → Rat)
    (events : List WsEvent) : List AudioResponse :=
  rtResponses req ptimes 0 (receiveAudioResponses events).1

/-! ### `src/mqtt/client.py` : MQTTAIServer -/

/-- The mutable server fields touched by request handling:
`_active_sessions : Set[str]` — keyed by `session_id` alone — plus the
capacity bound and the `_message_stats` counters. -/
structure ServerState : Type where
  active_sessions : Finset String
  max_concurrent_sessions : Nat
  requests_processed : Nat := 0
  responses_sent : Nat := 0
  errors : Nat := 0

/-- The default response topic template with the device id substituted. -/
def responseTopic (device_id : String) : String :=
  "iot/" ++ device_id ++ "/audio_response"

inductive PubMsg : Type where
  | response : AudioResponseMessage → PubMsg
  | failure : ErrorMessage → PubMsg
  | health : HealthCheckMessage → PubMsg

structure Publication : Type where
  topic : String
  message : PubMsg

/-- Classmethod `ErrorMessage.create`. -/
def ErrorMessage.create (fresh : String) (now : Rat)
    (device_id error_code error_message : String)
    (original : Option AudioRequestMessage) (session_id : String) : ErrorMessage :=
  mkErrorMessage fresh now
    { message_id := fresh, device_id := device_id, timestamp := now,
      message_type := .error, session_id := session_id,
      error_code := error_code, error_message := error_message,
      original_message_id := original.map (fun r => r.message_id) }

/-- Classmethod `AudioResponseMessage.create` : response built from the request and one
chunk; metadata keeps the request's format, fresh chunk numbering, default
sample rate and channels. -/
def AudioResponseMessage.create (fresh : String) (now : Rat)
    (request : AudioRequestMessage) (chunk_audio : List Nat)
    (transcript : String) (ptime cost : Rat) (chunk_id total_chunks : Nat)
    (metadata : Option PyDict) : AudioResponseMessage :=
  mkAudioResponseMessage fresh now
    { message_id := fresh, device_id := request.device_id, timestamp := now,
      message_type := .audio_response, session_id := request.session_id,
      audio_data := pyB64Encode chunk_audio,
      audio_metadata := { format := request.audio_metadata.format,
                          chunk_id := (chunk_id : Rat),
                          total_chunks := (total_chunks : Rat) },
      transcript := transcript, processing_time_ms := ptime,
      cost_estimate := cost, response_metadata := metadata }

/-- Fresh effectful values available when one message is built: a UUID, the
wall clock, and the elapsed-milliseconds reading. -/
structure ChunkEnv : Type where
  uuid : String
  now : Rat
  elapsed_ms : Rat

/-- Method `_send_error_response` : one Error publication to the device's response
topic. -/
def send_error_response (env : ChunkEnv) (request : AudioRequestMessage)
    (code msg : String) : Publication :=
  ⟨responseTopic request.device_id,
   .failure (ErrorMessage.create env.uuid env.now request.device_id code msg
     (some request) request.session_id)⟩

/-- The `async for` body of `_handle_audio_request`: one AudioResponse
publication per chunk, in stream order. -/
def publishResponses (env : Nat → ChunkEnv) (request : AudioRequestMessage) :
    Nat → List AudioResponse → List Publication
  | _, [] => []
  | i, c :: cs =>
      ⟨responseTopic request.device_id,
       .response (AudioResponseMessage.create (env i).uuid (env i).now request
         c.audio_data c.transcript (env i).elapsed_ms c.cost_estimate
         c.chunk_id c.total_chunks c.metadata)⟩ ::
      publishResponses env request (i + 1) cs

/-- Result of one AI-service stream consumed by the handler: the yielded
chunks, then either normal completion or an exception with its text. -/
inductive StreamOutcome : Type where
  | chunks : List AudioResponse → StreamOutcome
  | failed : List AudioResponse → String → StreamOutcome

/-- Method `_handle_audio_request` as a whole, sequential run.  The capacity check
rejects whenever the active count has reached the bound — membership of
the key is not consulted — and its early return still passes through the
`finally`, so the session id is discarded on every path.  The errors
counter is incremented only in the `except` branch, not on capacity
rejection. -/
def handle_audio_request (env : Nat → ChunkEnv) (errEnv : ChunkEnv)
    (st : ServerState) (request : AudioRequestMessage)
    (stream : StreamOutcome) : ServerState × List Publication :=
  if st.max_concurrent_sessions ≤ st.active_sessions.card then
    ({ st with active_sessions := st.active_sessions.erase request.session_id },
     [send_error_response errEnv request "CAPACITY_EXCEEDED"
        "Server at maximum capacity"])
  else
    let active1 := insert request.session_id st.active_sessions
    match stream with
    | .chunks cs =>
        ({ st with active_sessions := active1.erase request.session_id,
                   requests_processed := st.requests_processed + 1,
                   responses_sent := st.responses_sent + cs.length },
         publishResponses env request 0 cs)
    | .failed cs msg =>
        ({ st with active_sessions := active1.erase request.session_id,
                   responses_sent := st.responses_sent + cs.length,
                   errors := st.errors + 1 },
         publishResponses env request 0 cs ++
           [send_error_response errEnv request "PROCESSING_ERROR" msg])

/-! Concurrency-granular view of the registry: between two `await` points
the handler runs atomically, so the capacity check plus `add` is one step
and the `finally` discard another.  A trace interleaves such steps from
any number of concurrent handlers. -/

inductive RegistryEvent : Type where
  | reserve : String → RegistryEvent   -- the check-then-add block
  | discard : String → RegistryEvent   -- the finally block

def registryStep (maxN : Nat) (S : Finset String) : RegistryEvent → Finset String
  | .reserve sid => if maxN ≤ S.card then S else insert sid S
  | .discard sid => S.erase sid

def registryRun (maxN : Nat) (S : Finset String) (evs : List RegistryEvent) :
    Finset String :=
  evs.foldl (registryStep maxN) S

/-- The reservation step a request triggers: only its `session_id` is used as
the key. -/
def reserveEventOf (r : AudioRequestMessage) : RegistryEvent := .reserve r.session_id

/-- Message identifier of a parse result, whichever class it landed in. -/
def ParsedMessage.msgId : ParsedMessage → String
  | .request m => m.message_id
  | .response m => m.message_id
  | .err m => m.message_id
  | .health m => m.message_id
  | .plain m => m.message_id

/-- Timestamp of a parse result. -/
def ParsedMessage.msgTs : ParsedMessage → Rat
  | .request m => m.timestamp
  | .response m => m.timestamp
  | .err m => m.timestamp
  | .health m => m.timestamp
  | .plain m => m.timestamp

/-! Sample states and environments for concrete witnesses. -/

def sampleEnv : Nat → ChunkEnv := fun i => ⟨"u", 3, (i : Rat)⟩

def sampleErrEnv : ChunkEnv := ⟨"e", 4, 0⟩

/-- One held session and a capacity bound of one: the registry is full. -/
def oneFullState : ServerState :=
  { active_sessions := {"held"}, max_concurrent_sessions := 1 }

/-- Empty registry with room for one session. -/
def roomState : ServerState :=
  { active_sessions := ∅, max_concurrent_sessions := 1 }

/-- Same session id as `c4SampleRq` but a different device. -/
def c5Rq2 : AudioRequestMessage := { c4SampleRq with device_id := "d2" }

def c10Payload : PyDict :=
  [("message_id", .vstr ""), ("device_id", .vstr "d1"),
   ("timestamp", .vnum 0), ("message_type", .vstr "error"),
   ("session_id", .vstr "s"), ("error_code", .vstr "E"),
   ("error_message", .vstr "x")]

def c10Parsed : ParsedMessage :=
  .err { message_id := "u", device_id := "d1", timestamp := 7,
         message_type := .error, session_id := "s",
         error_code := "E", error_message := "x" }

/-- A backend error event as received on the websocket. -/
def errorEvent (m : String) : WsEvent :=
  .msg (.vobj [("type", .vstr "error"),
               ("error", .vobj [("message", .vstr m)])])

/-- A backend audio-delta event carrying the base64 encoding of `b`. -/
def audioDeltaEvent (b : List Nat) : WsEvent :=
  .msg (.vobj [("type", .vstr "response.audio.delta"),
               ("delta", .vstr (pyB64Encode b))])

/-- The backend completion event. -/
def doneEvent : WsEvent := .msg (.vobj [("type", .vstr "response.done")])

/-- The chunk the receive loop yields for an audio delta of bytes `b`. -/
def audioChunkOf (b : List Nat) : RtChunk :=
  ⟨b, "", [("type", .vstr "audio_delta")]⟩

def sampleAiRq : AudioRequest :=
  { audio_data := [1, 2, 3], session_id := "s1", device_id := "d1" }

/-! ### Theorems -/

theorem charSextet_sextetChar {n : Nat} (h : n < 64) :
    charSextet (sextetChar n) = some n := by
  have hfin : ∀ m : Fin 64, charSextet (sextetChar m.val) = some m.val := by decide
  exact hfin ⟨n, h⟩

theorem sextetChar_ne_pad {n : Nat} (h : n < 64) : sextetChar n ≠ '=' := by
  have hfin : ∀ m : Fin 64, sextetChar m.val ≠ '=' := by decide
  exact hfin ⟨n, h⟩

theorem b64DecodeChunks_encodeChunks (bs : List Nat) :
    (∀ b ∈ bs, b < 256) → b64DecodeChunks (b64EncodeChunks bs) = some bs := by
  induction bs using b64EncodeChunks.induct with
  | case1 => intro _; simp [b64EncodeChunks, b64DecodeChunks]
  | case2 b1 =>
      intro h
      have hb1 : b1 < 256 := h b1 (by simp)
      simp [b64EncodeChunks, b64DecodeChunks,
        charSextet_sextetChar (show b1 / 4 < 64 by omega),
        charSextet_sextetChar (show b1 % 4 * 16 < 64 by omega)]
      omega
  | case3 b1 b2 =>
      intro h
      have hb1 : b1 < 256 := h b1 (by simp)
      have hb2 : b2 < 256 := h b2 (by simp)
      simp [b64EncodeChunks, b64DecodeChunks,
        charSextet_sextetChar (show b1 / 4 < 64 by omega),
        charSextet_sextetChar (show b1 % 4 * 16 + b2 / 16 < 64 by omega),
        charSextet_sextetChar (show b2 % 16 * 4 < 64 by omega),
        sextetChar_ne_pad (show b2 % 16 * 4 < 64 by omega)]
      omega
  | case4 b1 b2 b3 rest ih =>
      intro h
      have hb1 : b1 < 256 := h b1 (by simp)
      have hb2 : b2 < 256 := h b2 (by simp)
      have hb3 : b3 < 256 := h b3 (by simp)
      have hrest : ∀ b ∈ rest, b < 256 := fun b hb => h b (by simp [hb])
      simp [b64EncodeChunks, b64DecodeChunks,
        charSextet_sextetChar (show b1 / 4 < 64 by omega),
        charSextet_sextetChar (show b1 % 4 * 16 + b2 / 16 < 64 by omega),
        charSextet_sextetChar (show b2 % 16 * 4 + b3 / 64 < 64 by omega),
        charSextet_sextetChar (show b3 % 64 < 64 by omega),
        sextetChar_ne_pad (show b2 % 16 * 4 + b3 / 64 < 64 by omega),
        sextetChar_ne_pad (show b3 % 64 < 64 by omega),
        ih hrest]
      omega

theorem pyB64_roundtrip (bs : List Nat) (h : ∀ b ∈ bs, b < 256) :
    pyB64Decode (pyB64Encode bs) = some bs :=
  b64DecodeChunks_encodeChunks bs h

theorem AudioMetadata.fromPy_toPy (md : AudioMetadata) :
    AudioMetadata.fromPy md.toPy = some md := by
  obtain ⟨f, sr, ch, ci, tc, dm⟩ := md
  cases dm <;>
    simp [AudioMetadata.toPy, AudioMetadata.fromPy, AudioMetadata.fields, keysOk,
      lookupKey, optFieldStrD, optFieldNumD, optFieldNum, optNumVal]

theorem parse_of_to_dict_request_msg (fresh : String) (now : Rat)
    (m : AudioRequestMessage) (h1 : m.message_id ≠ "") (h2 : m.timestamp ≠ 0)
    (h3 : m.message_type = .audio_request) :
    MessageParser.parse_message fresh now (.vobj m.to_dict) = .ok (.request m) := by
  obtain ⟨mid, dev, ts, mt, sid, ad, md, lang, vc, ins, cfg⟩ := m
  simp only at h1 h2 h3
  subst h3
  cases lang <;> cases vc <;> cases ins <;> cases cfg <;>
    simp [MessageParser.parse_message, AudioRequestMessage.to_dict,
      AudioRequestMessage.from_dict, AudioRequestMessage.fromDictAux,
      AudioRequestMessage.fields, keysOk, lookupKey, pyFalsy, reqStr, reqNum,
      reqMsgType, optFieldStr, optFieldObj, optStrVal, optObjVal,
      MessageType.value, messageTypeOfString, AudioMetadata.fromPy_toPy,
      mkAudioRequestMessage, Except.map, h1, h2]

theorem parse_of_to_dict_response_msg (fresh : String) (now : Rat)
    (m : AudioResponseMessage) (h1 : m.message_id ≠ "") (h2 : m.timestamp ≠ 0)
    (h3 : m.message_type = .audio_response) :
    MessageParser.parse_message fresh now (.vobj m.to_dict) = .ok (.response m) := by
  obtain ⟨mid, dev, ts, mt, sid, ad, md, tr, pt, ce, rm⟩ := m
  simp only at h1 h2 h3
  subst h3
  cases rm <;>
    simp [MessageParser.parse_message, AudioResponseMessage.to_dict,
      AudioResponseMessage.from_dict, AudioResponseMessage.fromDictAux,
      AudioResponseMessage.fields, keysOk, lookupKey, pyFalsy, reqStr, reqNum,
      reqMsgType, optFieldStrD, optFieldNumD, optFieldObj, optObjVal,
      MessageType.value, messageTypeOfString, AudioMetadata.fromPy_toPy,
      mkAudioResponseMessage, Except.map, h1, h2]

theorem parse_of_to_dict_error_msg (fresh : String) (now : Rat)
    (m : ErrorMessage) (h1 : m.message_id ≠ "") (h2 : m.timestamp ≠ 0)
    (h3 : m.message_type = .error) :
    MessageParser.parse_message fresh now (.vobj m.to_dict) = .ok (.err m) := by
  obtain ⟨mid, dev, ts, mt, sid, ec, em, om⟩ := m
  simp only at h1 h2 h3
  subst h3
  cases om <;>
    simp [MessageParser.parse_message, ErrorMessage.to_dict,
      ErrorMessage.from_dict, ErrorMessage.fromDictAux, ErrorMessage.fields,
      keysOk, lookupKey, pyFalsy, reqStr, reqNum, reqMsgType, optFieldStr,
      optStrVal, MessageType.value, messageTypeOfString, mkErrorMessage,
      Except.map, h1, h2]

theorem parse_of_to_dict_health_msg (fresh : String) (now : Rat)
    (m : HealthCheckMessage) (h1 : m.message_id ≠ "") (h2 : m.timestamp ≠ 0)
    (h3 : m.message_type = .health_check) :
    MessageParser.parse_message fresh now (.vobj m.to_dict) = .ok (.health m) := by
  obtain ⟨mid, dev, ts, mt, sid, st, up, ac, si⟩ := m
  simp only at h1 h2 h3
  subst h3
  cases si <;>
    simp [MessageParser.parse_message, HealthCheckMessage.to_dict,
      HealthCheckMessage.from_dict, HealthCheckMessage.fromDictAux,
      HealthCheckMessage.fields, keysOk, lookupKey, pyFalsy, reqStr, reqNum,
      reqMsgType, optFieldStrD, optFieldNumD, optFieldObj, optObjVal,
      MessageType.value, messageTypeOfString, mkHealthCheckMessage,
      Except.map, h1, h2]

/-- The two session kinds fall through `parse_message` routing to the base
class, whose `to_dict` they also round-trip through. -/
theorem parse_of_to_dict_plain_msg (fresh : String) (now : Rat)
    (m : AudioMessage) (h1 : m.message_id ≠ "") (h2 : m.timestamp ≠ 0)
    (h3 : m.message_type = .session_start ∨ m.message_type = .session_end) :
    MessageParser.parse_message fresh now (.vobj m.to_dict) = .ok (.plain m) := by
  obtain ⟨mid, dev, ts, mt, sid⟩ := m
  simp only at h1 h2 h3
  rcases h3 with h3 | h3 <;> subst h3 <;>
    simp [MessageParser.parse_message, AudioMessage.to_dict,
      AudioMessage.from_dict, AudioMessage.fromDictAux, AudioMessage.fields,
      keysOk, lookupKey, pyFalsy, reqStr, reqNum, reqMsgType,
      MessageType.value, messageTypeOfString, mkAudioMessage, Except.map,
      h1, h2]

/-- C4: for every well-formed value of the four kinds, decoding the encoding
yields the value back field for field, and the audio payload carried in the
base64 field round-trips byte for byte. -/
theorem C4_decode_encode_roundtrip (fresh : String) (now : Rat)
    (rq : AudioRequestMessage) (rs : AudioResponseMessage)
    (er : ErrorMessage) (hc : HealthCheckMessage) (bs : List Nat)
    (hrq1 : rq.message_id ≠ "") (hrq2 : rq.timestamp ≠ 0)
    (hrq3 : rq.message_type = .audio_request)
    (hrs1 : rs.message_id ≠ "") (hrs2 : rs.timestamp ≠ 0)
    (hrs3 : rs.message_type = .audio_response)
    (her1 : er.message_id ≠ "") (her2 : er.timestamp ≠ 0)
    (her3 : er.message_type = .error)
    (hhc1 : hc.message_id ≠ "") (hhc2 : hc.timestamp ≠ 0)
    (hhc3 : hc.message_type = .health_check)
    (hbs : ∀ b ∈ bs, b < 256) :
    MessageParser.parse_message fresh now (.vobj rq.to_dict) = .ok (.request rq) ∧
    MessageParser.parse_message fresh now (.vobj rs.to_dict) = .ok (.response rs) ∧
    MessageParser.parse_message fresh now (.vobj er.to_dict) = .ok (.err er) ∧
    MessageParser.parse_message fresh now (.vobj hc.to_dict) = .ok (.health hc) ∧
    AudioRequestMessage.get_audio_bytes
      { rq with audio_data := pyB64Encode bs } = some bs :=
  ⟨parse_of_to_dict_request_msg fresh now rq hrq1 hrq2 hrq3,
   parse_of_to_dict_response_msg fresh now rs hrs1 hrs2 hrs3,
   parse_of_to_dict_error_msg fresh now er her1 her2 her3,
   parse_of_to_dict_health_msg fresh now hc hhc1 hhc2 hhc3,
   pyB64_roundtrip bs hbs⟩

theorem C4_decode_encode_roundtrip_witness :
    MessageParser.parse_message "u" 9 (.vobj c4SampleRq.to_dict) =
      .ok (.request c4SampleRq) ∧
    MessageParser.parse_message "u" 9 (.vobj c4SampleRs.to_dict) =
      .ok (.response c4SampleRs) ∧
    MessageParser.parse_message "u" 9 (.vobj c4SampleEr.to_dict) =
      .ok (.err c4SampleEr) ∧
    MessageParser.parse_message "u" 9 (.vobj c4SampleHc.to_dict) =
      .ok (.health c4SampleHc) ∧
    AudioRequestMessage.get_audio_bytes
      { c4SampleRq with audio_data := pyB64Encode [0, 1, 255] } = some [0, 1, 255] :=
  C4_decode_encode_roundtrip "u" 9 c4SampleRq c4SampleRs c4SampleEr c4SampleHc
    [0, 1, 255] (by decide) (by decide) rfl (by decide) (by decide) rfl
    (by decide) (by decide) rfl (by decide) (by decide) rfl (by decide)

/-- C6 counterexample: the kind tag "session_start" lies outside the four
message kinds named by the claim, yet the payload decodes successfully into
a base-envelope message, refuting "no payload with any other kind tag
decodes successfully into a message". -/
theorem C6_counterexample_session_start_decodes :
    MessageParser.parse_message "u" 1 (.vobj
      [("message_id", .vstr "m"), ("device_id", .vstr "d1"),
       ("timestamp", .vnum 5), ("message_type", .vstr "session_start"),
       ("session_id", .vstr "s")]) = .ok (.plain c6SamplePlain) := by
  have h := parse_of_to_dict_plain_msg "u" 1 c6SamplePlain
    (by decide) (by decide) (Or.inl rfl)
  simpa [c6SamplePlain, AudioMessage.to_dict, MessageType.value] using h

/-- C6 amended: the closed set of kind tags is the six-member enum.  A
payload with no (or falsy) kind field fails with MissingKind; a kind tag
outside the six fails with UnknownKind; the two extra kinds session_start
and session_end decode successfully into the base envelope. -/
theorem C6_kind_rejection (fresh : String) (now : Rat) (d d2 : PyDict)
    (s : String) (hu1 : s ≠ "") (hu2 : messageTypeOfString s = none)
    (hl : lookupKey d "message_type" = some (.vstr s))
    (hm : lookupKey d2 "message_type" = none)
    (m : AudioMessage) (h1 : m.message_id ≠ "") (h2 : m.timestamp ≠ 0)
    (h3 : m.message_type = .session_start ∨ m.message_type = .session_end) :
    MessageParser.parse_message fresh now (.vobj d) = .error .unknownKind ∧
    MessageParser.parse_message fresh now (.vobj d2) = .error .missingKind ∧
    MessageParser.parse_message fresh now (.vobj m.to_dict) = .ok (.plain m) := by
  refine ⟨?_, ?_, parse_of_to_dict_plain_msg fresh now m h1 h2 h3⟩
  · simp [MessageParser.parse_message, hl, pyFalsy, hu1, hu2]
  · simp [MessageParser.parse_message, hm, pyFalsy]

theorem C6_kind_rejection_witness :
    MessageParser.parse_message "u" 1
      (.vobj [("message_type", .vstr "bogus")]) = .error .unknownKind ∧
    MessageParser.parse_message "u" 1
      (.vobj [("device_id", .vstr "d1")]) = .error .missingKind ∧
    MessageParser.parse_message "u" 1 (.vobj c6SamplePlain.to_dict) =
      .ok (.plain c6SamplePlain) :=
  C6_kind_rejection "u" 1 [("message_type", .vstr "bogus")]
    [("device_id", .vstr "d1")] "bogus" (by decide) (by decide) rfl rfl
    c6SamplePlain (by decide) (by decide) (Or.inl rfl)

theorem fromDictAux_id_ts_plain_msg (d : PyDict) (m0 : AudioMessage)
    (h : AudioMessage.fromDictAux d = some m0) :
    reqStr d "message_id" = some m0.message_id ∧
    reqNum d "timestamp" = some m0.timestamp := by
  unfold AudioMessage.fromDictAux at h
  split at h
  · split at h
    · injection h with h
      subst h
      exact ⟨by assumption, by assumption⟩
    · exact absurd h (by simp)
  · exact absurd h (by simp)

theorem fromDictAux_id_ts_request_msg (d : PyDict)
    (m0 : AudioRequestMessage) (h : AudioRequestMessage.fromDictAux d = some m0) :
    reqStr d "message_id" = some m0.message_id ∧
    reqNum d "timestamp" = some m0.timestamp := by
  unfold AudioRequestMessage.fromDictAux at h
  split at h
  · split at h
    · injection h with h
      subst h
      exact ⟨by assumption, by assumption⟩
    · exact absurd h (by simp)
  · exact absurd h (by simp)

theorem fromDictAux_id_ts_response_msg (d : PyDict)
    (m0 : AudioResponseMessage) (h : AudioResponseMessage.fromDictAux d = some m0) :
    reqStr d "message_id" = some m0.message_id ∧
    reqNum d "timestamp" = some m0.timestamp := by
  unfold AudioResponseMessage.fromDictAux at h
  split at h
  · split at h
    · injection h with h
      subst h
      exact ⟨by assumption, by assumption⟩
    · exact absurd h (by simp)
  · exact absurd h (by simp)

theorem fromDictAux_id_ts_error_msg (d : PyDict) (m0 : ErrorMessage)
    (h : ErrorMessage.fromDictAux d = some m0) :
    reqStr d "message_id" = some m0.message_id ∧
    reqNum d "timestamp" = some m0.timestamp := by
  unfold ErrorMessage.fromDictAux at h
  split at h
  · split at h
    · injection h with h
      subst h
      exact ⟨by assumption, by assumption⟩
    · exact absurd h (by simp)
  · exact absurd h (by simp)

theorem fromDictAux_id_ts_health_msg (d : PyDict)
    (m0 : HealthCheckMessage) (h : HealthCheckMessage.fromDictAux d = some m0) :
    reqStr d "message_id" = some m0.message_id ∧
    reqNum d "timestamp" = some m0.timestamp := by
  unfold HealthCheckMessage.fromDictAux at h
  split at h
  · split at h
    · injection h with h
      subst h
      exact ⟨by assumption, by assumption⟩
    · exact absurd h (by simp)
  · exact absurd h (by simp)

theorem from_dict_ok_request {fresh : String} {now : Rat} {data : PyDict}
    {m : ParsedMessage}
    (h : (AudioRequestMessage.from_dict fresh now data).map ParsedMessage.request = .ok m) :
    ∃ m0, AudioRequestMessage.fromDictAux data = some m0 ∧
      m = .request (mkAudioRequestMessage fresh now m0) := by
  unfold AudioRequestMessage.from_dict at h
  split at h
  · next m0 heq =>
      simp only [Except.map] at h
      injection h with h
      exact ⟨m0, heq, h.symm⟩
  · simp [Except.map] at h

theorem from_dict_ok_response {fresh : String} {now : Rat} {data : PyDict}
    {m : ParsedMessage}
    (h : (AudioResponseMessage.from_dict fresh now data).map ParsedMessage.response = .ok m) :
    ∃ m0, AudioResponseMessage.fromDictAux data = some m0 ∧
      m = .response (mkAudioResponseMessage fresh now m0) := by
  unfold AudioResponseMessage.from_dict at h
  split at h
  · next m0 heq =>
      simp only [Except.map] at h
      injection h with h
      exact ⟨m0, heq, h.symm⟩
  · simp [Except.map] at h

theorem from_dict_ok_err {fresh : String} {now : Rat} {data : PyDict}
    {m : ParsedMessage}
    (h : (ErrorMessage.from_dict fresh now data).map ParsedMessage.err = .ok m) :
    ∃ m0, ErrorMessage.fromDictAux data = some m0 ∧
      m = .err (mkErrorMessage fresh now m0) := by
  unfold ErrorMessage.from_dict at h
  split at h
  · next m0 heq =>
      simp only [Except.map] at h
      injection h with h
      exact ⟨m0, heq, h.symm⟩
  · simp [Except.map] at h

theorem from_dict_ok_health {fresh : String} {now : Rat} {data : PyDict}
    {m : ParsedMessage}
    (h : (HealthCheckMessage.from_dict fresh now data).map ParsedMessage.health = .ok m) :
    ∃ m0, HealthCheckMessage.fromDictAux data = some m0 ∧
      m = .health (mkHealthCheckMessage fresh now m0) := by
  unfold HealthCheckMessage.from_dict at h
  split at h
  · next m0 heq =>
      simp only [Except.map] at h
      injection h with h
      exact ⟨m0, heq, h.symm⟩
  · simp [Except.map] at h

theorem from_dict_ok_plain {fresh : String} {now : Rat} {data : PyDict}
    {m : ParsedMessage}
    (h : (AudioMessage.from_dict fresh now data).map ParsedMessage.plain = .ok m) :
    ∃ m0, AudioMessage.fromDictAux data = some m0 ∧
      m = .plain (mkAudioMessage fresh now m0) := by
  unfold AudioMessage.from_dict at h
  split at h
  · next m0 heq =>
      simp only [Except.map] at h
      injection h with h
      exact ⟨m0, heq, h.symm⟩
  · simp [Except.map] at h

theorem ite_id_ne {fresh x : String} (hf : fresh ≠ "") :
    (if x = "" then fresh else x) ≠ "" := by
  split
  · exact hf
  · assumption

theorem ite_ts_ne {now x : Rat} (hn : now ≠ 0) :
    (if x = 0 then now else x) ≠ 0 := by
  split
  · exact hn
  · assumption

/-- C10: every successfully decoded message carries a non-empty message id
and a nonzero timestamp; a payload presenting an empty id or a zero
timestamp has that field replaced by the freshly generated UUID or the
current wall-clock reading, so such input values are never preserved. -/
theorem C10_decode_forces_fresh_id_ts (fresh : String) (now : Rat)
    (p : PyVal) (m : ParsedMessage) (hf : fresh ≠ "") (hn : now ≠ 0)
    (h : MessageParser.parse_message fresh now p = .ok m) :
    m.msgId ≠ "" ∧ m.msgTs ≠ 0 ∧
    (∀ d, p = .vobj d → lookupKey d "message_id" = some (.vstr "") →
      m.msgId = fresh) ∧
    (∀ d, p = .vobj d → lookupKey d "timestamp" = some (.vnum 0) →
      m.msgTs = now) := by
  cases p with
  | vnone => simp [MessageParser.parse_message] at h
  | vbool b => simp [MessageParser.parse_message] at h
  | vstr s => simp [MessageParser.parse_message] at h
  | vnum q => simp [MessageParser.parse_message] at h
  | vlist l => simp [MessageParser.parse_message] at h
  | vobj data =>
    simp only [MessageParser.parse_message] at h
    split at h
    · exact absurd h (by simp)
    · split at h
      · split at h
        · exact absurd h (by simp)
        · obtain ⟨m0, haux, rfl⟩ := from_dict_ok_request h
          obtain ⟨hid, hts⟩ := fromDictAux_id_ts_request_msg data m0 haux
          refine ⟨ite_id_ne hf, ite_ts_ne hn, ?_, ?_⟩
          · intro d hd hlook
            injection hd with hd
            subst hd
            have h2 : reqStr data "message_id" = some "" := by
              simp [reqStr, hlook]
            rw [hid] at h2
            injection h2 with h2
            show (if m0.message_id = "" then fresh else m0.message_id) = fresh
            rw [if_pos h2]
          · intro d hd hlook
            injection hd with hd
            subst hd
            have h2 : reqNum data "timestamp" = some 0 := by
              simp [reqNum, hlook]
            rw [hts] at h2
            injection h2 with h2
            show (if m0.timestamp = 0 then now else m0.timestamp) = now
            rw [if_pos h2]
        · obtain ⟨m0, haux, rfl⟩ := from_dict_ok_response h
          obtain ⟨hid, hts⟩ := fromDictAux_id_ts_response_msg data m0 haux
          refine ⟨ite_id_ne hf, ite_ts_ne hn, ?_, ?_⟩
          · intro d hd hlook
            injection hd with hd
            subst hd
            have h2 : reqStr data "message_id" = some "" := by
              simp [reqStr, hlook]
            rw [hid] at h2
            injection h2 with h2
            show (if m0.message_id = "" then fresh else m0.message_id) = fresh
            rw [if_pos h2]
          · intro d hd hlook
            injection hd with hd
            subst hd
            have h2 : reqNum data "timestamp" = some 0 := by
              simp [reqNum, hlook]
            rw [hts] at h2
            injection h2 with h2
            show (if m0.timestamp = 0 then now else m0.timestamp) = now
            rw [if_pos h2]
        · obtain ⟨m0, haux, rfl⟩ := from_dict_ok_err h
          obtain ⟨hid, hts⟩ := fromDictAux_id_ts_error_msg data m0 haux
          refine ⟨ite_id_ne hf, ite_ts_ne hn, ?_, ?_⟩
          · intro d hd hlook
            injection hd with hd
            subst hd
            have h2 : reqStr data "message_id" = some "" := by
              simp [reqStr, hlook]
            rw [hid] at h2
            injection h2 with h2
            show (if m0.message_id = "" then fresh else m0.message_id) = fresh
            rw [if_pos h2]
          · intro d hd hlook
            injection hd with hd
            subst hd
            have h2 : reqNum data "timestamp" = some 0 := by
              simp [reqNum, hlook]
            rw [hts] at h2
            injection h2 with h2
            show (if m0.timestamp = 0 then now else m0.timestamp) = now
            rw [if_pos h2]
        · obtain ⟨m0, haux, rfl⟩ := from_dict_ok_health h
          obtain ⟨hid, hts⟩ := fromDictAux_id_ts_health_msg data m0 haux
          refine ⟨ite_id_ne hf, ite_ts_ne hn, ?_, ?_⟩
          · intro d hd hlook
            injection hd with hd
            subst hd
            have h2 : reqStr data "message_id" = some "" := by
              simp [reqStr, hlook]
            rw [hid] at h2
            injection h2 with h2
            show (if m0.message_id = "" then fresh else m0.message_id) = fresh
            rw [if_pos h2]
          · intro d hd hlook
            injection hd with hd
            subst hd
            have h2 : reqNum data "timestamp" = some 0 := by
              simp [reqNum, hlook]
            rw [hts] at h2
            injection h2 with h2
            show (if m0.timestamp = 0 then now else m0.timestamp) = now
            rw [if_pos h2]
        · obtain ⟨m0, haux, rfl⟩ := from_dict_ok_plain h
          obtain ⟨hid, hts⟩ := fromDictAux_id_ts_plain_msg data m0 haux
          refine ⟨ite_id_ne hf, ite_ts_ne hn, ?_, ?_⟩
          · intro d hd hlook
            injection hd with hd
            subst hd
            have h2 : reqStr data "message_id" = some "" := by
              simp [reqStr, hlook]
            rw [hid] at h2
            injection h2 with h2
            show (if m0.message_id = "" then fresh else m0.message_id) = fresh
            rw [if_pos h2]
          · intro d hd hlook
            injection hd with hd
            subst hd
            have h2 : reqNum data "timestamp" = some 0 := by
              simp [reqNum, hlook]
            rw [hts] at h2
            injection h2 with h2
            show (if m0.timestamp = 0 then now else m0.timestamp) = now
            rw [if_pos h2]
      · exact absurd h (by simp)

theorem C10_decode_forces_fresh_id_ts_witness :
    ParsedMessage.msgId c10Parsed ≠ "" ∧ ParsedMessage.msgTs c10Parsed ≠ 0 ∧
    ParsedMessage.msgId c10Parsed = "u" ∧ ParsedMessage.msgTs c10Parsed = 7 := by
  have T := C10_decode_forces_fresh_id_ts "u" 7 (.vobj c10Payload) c10Parsed
    (by decide) (by decide) rfl
  exact ⟨T.1, T.2.1, T.2.2.1 c10Payload rfl rfl, T.2.2.2 c10Payload rfl rfl⟩

/-! Registry invariant machinery for C2. -/

theorem registryStep_card_le (maxN : Nat) (S : Finset String)
    (e : RegistryEvent) (hS : S.card ≤ maxN) :
    (registryStep maxN S e).card ≤ maxN := by
  cases e with
  | reserve sid =>
      simp only [registryStep]
      split
      · exact hS
      · next hlt =>
          calc (insert sid S).card ≤ S.card + 1 := Finset.card_insert_le _ _
            _ ≤ maxN := by omega
  | discard sid =>
      exact le_trans (Finset.card_le_card (Finset.erase_subset _ _)) hS

theorem registryRun_card_le (maxN : Nat) (S : Finset String)
    (evs : List RegistryEvent) (hS : S.card ≤ maxN) :
    (registryRun maxN S evs).card ≤ maxN := by
  induction evs generalizing S with
  | nil => exact hS
  | cons e evs ih => exact ih _ (registryStep_card_le maxN S e hS)

/-- C1 counterexample: with capacity 1 and the key "held" already in the
registry, a request reusing that very key is rejected with
CAPACITY_EXCEEDED (and the finally block even discards the held key),
refuting the claim that a request reusing an already-held key is
accepted and processed. -/
theorem C1_counterexample_held_key_rejected :
    handle_audio_request sampleEnv sampleErrEnv oneFullState
      { c4SampleRq with session_id := "held" } (.chunks []) =
    ({ oneFullState with active_sessions := ∅ },
     [send_error_response sampleErrEnv { c4SampleRq with session_id := "held" }
        "CAPACITY_EXCEEDED" "Server at maximum capacity"]) := by
  rfl

/-- C1 amended: when the active-session count has reached the configured
maximum, every inbound request is rejected with CAPACITY_EXCEEDED — the
capacity check never consults membership, so a request reusing an
already-held key is rejected too, and the rejection's finally block
removes the held key from the registry. -/
theorem C1_at_capacity_rejects_even_held_key (env : Nat → ChunkEnv)
    (errEnv : ChunkEnv) (st : ServerState) (r : AudioRequestMessage)
    (stream : StreamOutcome)
    (hfull : st.max_concurrent_sessions ≤ st.active_sessions.card)
    (hheld : r.session_id ∈ st.active_sessions) :
    handle_audio_request env errEnv st r stream =
      ({ st with active_sessions := st.active_sessions.erase r.session_id },
       [send_error_response errEnv r "CAPACITY_EXCEEDED"
          "Server at maximum capacity"]) ∧
    r.session_id ∉ (handle_audio_request env errEnv st r stream).1.active_sessions ∧
    (handle_audio_request env errEnv st r stream).1.active_sessions.card =
      st.active_sessions.card - 1 := by
  refine ⟨?_, ?_, ?_⟩
  · simp [handle_audio_request, hfull]
  · simp [handle_audio_request, hfull, Finset.not_mem_erase]
  · simp [handle_audio_request, hfull, Finset.card_erase_of_mem hheld]

theorem C1_at_capacity_rejects_even_held_key_witness :
    handle_audio_request sampleEnv sampleErrEnv oneFullState
      { c4SampleRq with session_id := "held" } (.failed [] "x") =
      ({ oneFullState with
           active_sessions := oneFullState.active_sessions.erase "held" },
       [send_error_response sampleErrEnv { c4SampleRq with session_id := "held" }
          "CAPACITY_EXCEEDED" "Server at maximum capacity"]) ∧
    "held" ∉ (handle_audio_request sampleEnv sampleErrEnv oneFullState
      { c4SampleRq with session_id := "held" }
      (.failed [] "x")).1.active_sessions ∧
    (handle_audio_request sampleEnv sampleErrEnv oneFullState
      { c4SampleRq with session_id := "held" }
      (.failed [] "x")).1.active_sessions.card =
      oneFullState.active_sessions.card - 1 :=
  C1_at_capacity_rejects_even_held_key sampleEnv sampleErrEnv oneFullState
    { c4SampleRq with session_id := "held" } (.failed [] "x")
    (by decide) (by decide)

/-- C2: the registry never exceeds the capacity bound over any interleaved
trace of reservation and discard steps, and a request for a brand-new key
arriving at capacity is rejected: the only publication is the
CAPACITY_EXCEEDED Error on the device's response topic and the key is not
added. -/
theorem C2_capacity_invariant_and_reject (maxN : Nat) (S : Finset String)
    (evs : List RegistryEvent) (hS : S.card ≤ maxN) (env : Nat → ChunkEnv)
    (errEnv : ChunkEnv) (st : ServerState) (r : AudioRequestMessage)
    (stream : StreamOutcome)
    (hfull : st.max_concurrent_sessions ≤ st.active_sessions.card)
    (hnew : r.session_id ∉ st.active_sessions) :
    (registryRun maxN S evs).card ≤ maxN ∧
    (handle_audio_request env errEnv st r stream).2 =
      [send_error_response errEnv r "CAPACITY_EXCEEDED"
         "Server at maximum capacity"] ∧
    (send_error_response errEnv r "CAPACITY_EXCEEDED"
       "Server at maximum capacity").topic = responseTopic r.device_id ∧
    (ErrorMessage.create errEnv.uuid errEnv.now r.device_id "CAPACITY_EXCEEDED"
       "Server at maximum capacity" (some r) r.session_id).error_code =
      "CAPACITY_EXCEEDED" ∧
    (handle_audio_request env errEnv st r stream).1.active_sessions =
      st.active_sessions := by
  refine ⟨registryRun_card_le maxN S evs hS, ?_, rfl, rfl, ?_⟩
  · simp [handle_audio_request, hfull]
  · simp [handle_audio_request, hfull, Finset.erase_eq_of_not_mem hnew]

theorem C2_capacity_invariant_and_reject_witness :
    (registryRun 1 {"a"} [.reserve "b", .discard "a"]).card ≤ 1 ∧
    (handle_audio_request sampleEnv sampleErrEnv oneFullState
       { c4SampleRq with session_id := "s2" } (.chunks [])).2 =
      [send_error_response sampleErrEnv { c4SampleRq with session_id := "s2" }
         "CAPACITY_EXCEEDED" "Server at maximum capacity"] ∧
    (send_error_response sampleErrEnv { c4SampleRq with session_id := "s2" }
       "CAPACITY_EXCEEDED" "Server at maximum capacity").topic =
      responseTopic "d1" ∧
    (ErrorMessage.create sampleErrEnv.uuid sampleErrEnv.now "d1"
       "CAPACITY_EXCEEDED" "Server at maximum capacity"
       (some { c4SampleRq with session_id := "s2" }) "s2").error_code =
      "CAPACITY_EXCEEDED" ∧
    (handle_audio_request sampleEnv sampleErrEnv oneFullState
       { c4SampleRq with session_id := "s2" } (.chunks [])).1.active_sessions =
      oneFullState.active_sessions :=
  C2_capacity_invariant_and_reject 1 {"a"} [.reserve "b", .discard "a"]
    (by decide) sampleEnv sampleErrEnv oneFullState
    { c4SampleRq with session_id := "s2" } (.chunks []) (by decide) (by decide)

/-- C5 counterexample: two requests carrying the same session id from two
different devices produce a single registry entry, not two — the registry
is keyed by session id alone. -/
theorem C5_counterexample_shared_session_key :
    registryRun 2 ∅ [reserveEventOf c4SampleRq, reserveEventOf c5Rq2] = {"s1"} ∧
    (registryRun 2 ∅ [reserveEventOf c4SampleRq, reserveEventOf c5Rq2]).card = 1 ∧
    c4SampleRq.device_id ≠ c5Rq2.device_id ∧
    c4SampleRq.session_id = c5Rq2.session_id := by
  refine ⟨by decide, by decide, by decide, by decide⟩

/-- C5 amended: active sessions are keyed by session id alone: reserving for
a second request bearing the same session id — whatever its device id — is a
no-op on the registry, and the end of any handler run removes exactly the
session-id-keyed entry of its request. -/
theorem C5_registry_keyed_by_session_id (maxN : Nat) (S : Finset String)
    (r1 r2 : AudioRequestMessage) (hsid : r1.session_id = r2.session_id)
    (env : Nat → ChunkEnv) (errEnv : ChunkEnv) (st : ServerState)
    (r : AudioRequestMessage) (stream : StreamOutcome) :
    registryStep maxN (registryStep maxN S (reserveEventOf r1)) (reserveEventOf r2) =
      registryStep maxN S (reserveEventOf r1) ∧
    (handle_audio_request env errEnv st r stream).1.active_sessions =
      st.active_sessions.erase r.session_id := by
  constructor
  · simp only [reserveEventOf, hsid, registryStep]
    by_cases h1 : maxN ≤ S.card
    · simp [h1]
    · simp only [if_neg h1]
      by_cases h2 : maxN ≤ (insert r2.session_id S).card
      · simp [h2]
      · simp [h2, Finset.insert_idem]
  · by_cases hfull : st.max_concurrent_sessions ≤ st.active_sessions.card
    · simp [handle_audio_request, hfull]
    · cases stream <;>
        simp [handle_audio_request, hfull, Finset.erase_insert_eq_erase]

theorem C5_registry_keyed_by_session_id_witness :
    registryStep 2 (registryStep 2 ∅ (reserveEventOf c4SampleRq))
        (reserveEventOf c5Rq2) =
      registryStep 2 ∅ (reserveEventOf c4SampleRq) ∧
    (handle_audio_request sampleEnv sampleErrEnv roomState c4SampleRq
       (.chunks [])).1.active_sessions =
      roomState.active_sessions.erase "s1" :=
  C5_registry_keyed_by_session_id 2 ∅ c4SampleRq c5Rq2 rfl sampleEnv
    sampleErrEnv roomState c4SampleRq (.chunks [])

/-- C7 counterexample: a capacity rejection publishes the CAPACITY_EXCEEDED
Error but leaves the errors counter untouched, refuting "every failure …
is counted in the errors statistic". -/
theorem C7_counterexample_capacity_not_counted :
    (handle_audio_request sampleEnv sampleErrEnv oneFullState
       { c4SampleRq with session_id := "sX" } (.chunks [])).1.errors = 0 ∧
    (handle_audio_request sampleEnv sampleErrEnv oneFullState
       { c4SampleRq with session_id := "sX" } (.chunks [])).2 =
      [send_error_response sampleErrEnv { c4SampleRq with session_id := "sX" }
         "CAPACITY_EXCEEDED" "Server at maximum capacity"] := by
  exact ⟨rfl, rfl⟩

/-- C7 amended: the handler is a total function — every failure is caught
and converted to an Error publication on the originating device's response
topic.  A processing failure increments the errors statistic; a capacity
rejection publishes its Error but does not touch the counter. -/
theorem C7_failures_caught_and_published (env : Nat → ChunkEnv)
    (errEnv : ChunkEnv) (st stF : ServerState) (r : AudioRequestMessage)
    (cs : List AudioResponse) (msg : String) (stream : StreamOutcome)
    (hcap : st.active_sessions.card < st.max_concurrent_sessions)
    (hfull : stF.max_concurrent_sessions ≤ stF.active_sessions.card) :
    (handle_audio_request env errEnv st r (.failed cs msg)).1.errors =
      st.errors + 1 ∧
    (handle_audio_request env errEnv st r (.failed cs msg)).2 =
      publishResponses env r 0 cs ++
        [send_error_response errEnv r "PROCESSING_ERROR" msg] ∧
    (send_error_response errEnv r "PROCESSING_ERROR" msg).topic =
      responseTopic r.device_id ∧
    (handle_audio_request env errEnv stF r stream).1.errors = stF.errors ∧
    (handle_audio_request env errEnv stF r stream).2 =
      [send_error_response errEnv r "CAPACITY_EXCEEDED"
         "Server at maximum capacity"] := by
  have hne : ¬ st.max_concurrent_sessions ≤ st.active_sessions.card := by omega
  refine ⟨?_, ?_, rfl, ?_, ?_⟩
  · simp [handle_audio_request, hne]
  · simp [handle_audio_request, hne]
  · simp [handle_audio_request, hfull]
  · simp [handle_audio_request, hfull]

theorem C7_failures_caught_and_published_witness :
    (handle_audio_request sampleEnv sampleErrEnv roomState c4SampleRq
       (.failed [] "boom")).1.errors = roomState.errors + 1 ∧
    (handle_audio_request sampleEnv sampleErrEnv roomState c4SampleRq
       (.failed [] "boom")).2 =
      publishResponses sampleEnv c4SampleRq 0 [] ++
        [send_error_response sampleErrEnv c4SampleRq "PROCESSING_ERROR" "boom"] ∧
    (send_error_response sampleErrEnv c4SampleRq "PROCESSING_ERROR" "boom").topic =
      responseTopic "d1" ∧
    (handle_audio_request sampleEnv sampleErrEnv oneFullState c4SampleRq
       (.chunks [])).1.errors = oneFullState.errors ∧
    (handle_audio_request sampleEnv sampleErrEnv oneFullState c4SampleRq
       (.chunks [])).2 =
      [send_error_response sampleErrEnv c4SampleRq "CAPACITY_EXCEEDED"
         "Server at maximum capacity"] :=
  C7_failures_caught_and_published sampleEnv sampleErrEnv roomState
    oneFullState c4SampleRq [] "boom" (.chunks []) (by decide) (by decide)

/-- C3: the loop body does raise AIServiceProcessingError on a backend
error event — but the generator's own blanket handlers swallow both that
exception and the 30-second timeout, so the caller sees the chunk stream
end silently with no failure in both cases.  This is the code-side
evidence for the claim's divergence. -/
theorem C3_failures_swallowed_not_surfaced :
    receiveLoop [errorEvent "boom"] =
      ([], some (.processingFail "API error: boom")) ∧
    receiveAudioResponses [errorEvent "boom"] = ([], none) ∧
    receiveLoop [WsEvent.timeout] = ([], some .timeoutFail) ∧
    receiveAudioResponses [WsEvent.timeout] = ([], none) :=
  ⟨rfl, rfl, rfl, rfl⟩

/-- C8 counterexample: with an empty payload, `_send_audio_data` still
sends the full append-commit-create sequence (the appended audio body is
the empty base64 text); no local SendFailed occurs before contacting the
backend. -/
theorem C8_counterexample_empty_payload_sent :
    sendAudioData [] =
      [.vobj [("type", .vstr "input_audio_buffer.append"),
              ("audio", .vstr "")],
       .vobj [("type", .vstr "input_audio_buffer.commit")],
       .vobj [("type", .vstr "response.create")]] ∧
    (sendAudioData []).length = 3 :=
  ⟨rfl, rfl⟩

/-- C8 amended: `_send_audio_data` performs no emptiness validation: for
every payload, the empty one included, it emits exactly the
append-commit-create sequence, whose audio body decodes back to the
payload. -/
theorem C8_no_emptiness_validation (audio : List Nat)
    (h : ∀ x ∈ audio, x < 256) :
    sendAudioData audio =
      [.vobj [("type", .vstr "input_audio_buffer.append"),
              ("audio", .vstr (pyB64Encode audio))],
       .vobj [("type", .vstr "input_audio_buffer.commit")],
       .vobj [("type", .vstr "response.create")]] ∧
    pyB64Decode (pyB64Encode audio) = some audio :=
  ⟨rfl, pyB64_roundtrip audio h⟩

theorem C8_no_emptiness_validation_witness :
    sendAudioData [] =
      [.vobj [("type", .vstr "input_audio_buffer.append"),
              ("audio", .vstr (pyB64Encode []))],
       .vobj [("type", .vstr "input_audio_buffer.commit")],
       .vobj [("type", .vstr "response.create")]] ∧
    pyB64Decode (pyB64Encode []) = some [] :=
  C8_no_emptiness_validation [] (by decide)

theorem pyB64Encode_ne_empty {b : List Nat} (hb : b ≠ []) :
    pyB64Encode b ≠ "" := by
  cases b with
  | nil => exact absurd rfl hb
  | cons b1 t =>
      cases t with
      | nil => simp [pyB64Encode, b64EncodeChunks, String.ext_iff]
      | cons b2 t2 =>
          cases t2 <;> simp [pyB64Encode, b64EncodeChunks, String.ext_iff]

theorem receiveLoop_delta_trace (bs : List (List Nat))
    (h : ∀ b ∈ bs, b ≠ [] ∧ ∀ x ∈ b, x < 256) :
    receiveLoop (bs.map audioDeltaEvent ++ [doneEvent]) =
      (bs.map audioChunkOf, none) := by
  induction bs with
  | nil => rfl
  | cons b t ih =>
      obtain ⟨hb, hlt⟩ := h b (by simp)
      have ht : ∀ x ∈ t, x ≠ [] ∧ ∀ y ∈ x, y < 256 := fun x hx => h x (by simp [hx])
      simp [receiveLoop, wsDispatch, audioDeltaEvent, lookupKey, pyFalsy,
        pyB64Encode_ne_empty hb, pyB64_roundtrip b hlt, audioChunkOf, ih ht]

theorem publishResponses_rtResponses_get (env : Nat → ChunkEnv)
    (request : AudioRequestMessage) (aireq : AudioRequest)
    (ptimes : Nat → Rat) :
    ∀ (bs : List (List Nat)) (k i : Nat),
      (publishResponses env request k
        (rtResponses aireq ptimes k (bs.map audioChunkOf)))[i]? =
      (bs[i]?).map (fun b =>
        ⟨responseTopic request.device_id,
         .response (AudioResponseMessage.create (env (k + i)).uuid
           (env (k + i)).now request b "" (env (k + i)).elapsed_ms
           (estimateCost ((aireq.audio_data.length : Rat) / 16000)) (k + i) 1
           (some [("type", .vstr "audio_delta")]))⟩) := by
  intro bs
  induction bs with
  | nil => intro k i; simp [rtResponses, publishResponses]
  | cons b t ih =>
      intro k i
      cases i with
      | zero => simp [rtResponses, publishResponses, audioChunkOf]
      | succ i =>
          have hrec := ih (k + 1) i
          have hk : k + 1 + i = k + (i + 1) := by omega
          rw [hk] at hrec
          simpa [rtResponses, publishResponses, audioChunkOf] using hrec

theorem publishResponses_length (env : Nat → ChunkEnv)
    (request : AudioRequestMessage) :
    ∀ (cs : List AudioResponse) (k : Nat),
      (publishResponses env request k cs).length = cs.length := by
  intro cs
  induction cs with
  | nil => intro k; rfl
  | cons c t ih => intro k; simp [publishResponses, ih (k + 1)]

theorem rtResponses_length (aireq : AudioRequest) (ptimes : Nat → Rat) :
    ∀ (cs : List RtChunk) (k : Nat),
      (rtResponses aireq ptimes k cs).length = cs.length := by
  intro cs
  induction cs with
  | nil => intro k; rfl
  | cons c t ih => intro k; simp [rtResponses, ih (k + 1)]

/-- C9: when the backend emits the audio chunks of `bs` in order followed
by completion, the handler publishes exactly one AudioResponse per chunk
to the device's response topic, in the same order, the i-th carrying chunk
identifier i and the i-th chunk's bytes. -/
theorem C9_chunks_published_in_order (env : Nat → ChunkEnv)
    (errEnv : ChunkEnv) (st : ServerState) (request : AudioRequestMessage)
    (aireq : AudioRequest) (ptimes : Nat → Rat) (bs : List (List Nat))
    (h : ∀ b ∈ bs, b ≠ [] ∧ ∀ x ∈ b, x < 256)
    (hcap : st.active_sessions.card < st.max_concurrent_sessions) :
    (handle_audio_request env errEnv st request (.chunks
       (process_audio_stream aireq ptimes
         (bs.map audioDeltaEvent ++ [doneEvent])))).2.length = bs.length ∧
    ∀ i, i < bs.length →
      (handle_audio_request env errEnv st request (.chunks
         (process_audio_stream aireq ptimes
           (bs.map audioDeltaEvent ++ [doneEvent])))).2[i]? =
        some ⟨responseTopic request.device_id,
          .response (AudioResponseMessage.create (env i).uuid (env i).now
            request (bs[i]?.getD []) "" (env i).elapsed_ms
            (estimateCost ((aireq.audio_data.length : Rat) / 16000)) i 1
            (some [("type", .vstr "audio_delta")]))⟩ := by
  have hne : ¬ st.max_concurrent_sessions ≤ st.active_sessions.card := by omega
  have hstream : process_audio_stream aireq ptimes
      (bs.map audioDeltaEvent ++ [doneEvent]) =
      rtResponses aireq ptimes 0 (bs.map audioChunkOf) := by
    simp [process_audio_stream, receiveAudioResponses,
      receiveLoop_delta_trace bs h]
  constructor
  · simp [handle_audio_request, hne, hstream,
      publishResponses_length, rtResponses_length]
  · intro i hi
    have hbi : bs[i]? = some (bs[i]?.getD []) := by
      rw [List.getElem?_eq_getElem hi]
      rfl
    have hget := publishResponses_rtResponses_get env request aireq ptimes bs 0 i
    rw [hbi] at hget
    simp only [handle_audio_request, if_neg hne, hstream]
    simpa using hget

theorem C9_chunks_published_in_order_witness :
    (handle_audio_request sampleEnv sampleErrEnv roomState c4SampleRq (.chunks
       (process_audio_stream sampleAiRq (fun i => (i : Rat))
         (([[1, 2], [3]] : List (List Nat)).map audioDeltaEvent ++
           [doneEvent])))).2.length =
      ([[1, 2], [3]] : List (List Nat)).length ∧
    (handle_audio_request sampleEnv sampleErrEnv roomState c4SampleRq (.chunks
       (process_audio_stream sampleAiRq (fun i => (i : Rat))
         (([[1, 2], [3]] : List (List Nat)).map audioDeltaEvent ++
           [doneEvent])))).2[0]? =
      some ⟨responseTopic c4SampleRq.device_id,
        .response (AudioResponseMessage.create (sampleEnv 0).uuid
          (sampleEnv 0).now c4SampleRq
          (([[1, 2], [3]] : List (List Nat))[0]?.getD []) ""
          (sampleEnv 0).elapsed_ms
          (estimateCost ((sampleAiRq.audio_data.length : Rat) / 16000)) 0 1
          (some [("type", .vstr "audio_delta")]))⟩ ∧
    (handle_audio_request sampleEnv sampleErrEnv roomState c4SampleRq (.chunks
       (process_audio_stream sampleAiRq (fun i => (i : Rat))
         (([[1, 2], [3]] : List (List Nat)).map audioDeltaEvent ++
           [doneEvent])))).2[1]? =
      some ⟨responseTopic c4SampleRq.device_id,
        .response (AudioResponseMessage.create (sampleEnv 1).uuid
          (sampleEnv 1).now c4SampleRq
          (([[1, 2], [3]] : List (List Nat))[1]?.getD []) ""
          (sampleEnv 1).elapsed_ms
          (estimateCost ((sampleAiRq.audio_data.length : Rat) / 16000)) 1 1
          (some [("type", .vstr "audio_delta")]))⟩ := by
  have T := C9_chunks_published_in_order sampleEnv sampleErrEnv roomState
    c4SampleRq sampleAiRq (fun i => (i : Rat)) [[1, 2], [3]]
    (by decide) (by decide)
  exact ⟨T.1, T.2 0 (by decide), T.2 1 (by decide)⟩

end HwMqtt

